import Mathlib

/-!
Shallow embedding of `src/webhook_server.py` (kitty-webhook2): a Flask app
with a health route, a Razorpay webhook route, a manual test route, and a
startup configuration check.  Request handlers are embedded as pure
functions from a configuration, an environment of external collaborators
(signature verifier, JSON parser, message sender) and a request to an
outcome: an HTTP status, a JSON response body, and the list of external
effects performed (signature verifications and outbound messages).
-/

namespace KittyWebhook

/-- JSON values, modelling Python objects produced by `json.load` /
`request.get_json()`: `null` is Python `None`, objects are dicts. -/
inductive Json where
  | null : Json
  | bool : Bool → Json
  | num : Int → Json
  | str : String → Json
  | arr : List Json → Json
  | obj : List (String × Json) → Json

/-- First-match lookup in an object's field list, modelling Python
`dict.get(key)` (a parsed JSON dict has unique keys). -/
def lookupField : List (String × Json) → String → Option Json
  | [], _ => none
  | (k, v) :: rest, key => if k = key then some v else lookupField rest key

/-- Python `data.get(key)`: succeeds (with `none` for a missing key) only
when `data` is a dict; on any other value the attribute access `.get`
raises `AttributeError`, modelled as `Except.error`. -/
def jsonGet : Json → String → Except String (Option Json)
  | Json.obj fields, key => Except.ok (lookupField fields key)
  | _, _ => Except.error "AttributeError"

/-- Whether a value returned by `.get` is a given Python string, as tested
by `==` in the source (`data.get('event') == 'payment.captured'`): true
exactly when the value is present and is that string. -/
def valueIsStr : Option Json → String → Bool
  | some (Json.str s), t => s == t
  | _, _ => false

/-- Whether `data` is a JSON object (a Python dict). -/
def isObj : Json → Bool
  | Json.obj _ => true
  | _ => false

/-- Python truthiness of a JSON value, as used by
`if not all([BOT_TOKEN, ...])` on line 47 of the source. -/
def truthy : Json → Bool
  | Json.null => false
  | Json.bool b => b
  | Json.num n => n != 0
  | Json.str s => s != ""
  | Json.arr xs => !xs.isEmpty
  | Json.obj fields => !fields.isEmpty

/-- Truthiness of a `config.get(key)` result: Python `None` (absent key)
is falsy. -/
def optTruthy : Option Json → Bool
  | none => false
  | some j => truthy j

/-- The six module-level configuration values read on lines 39-44. -/
structure Config where
  BOT_TOKEN : String
  CHAT_ID : String
  FILE_URL : String
  RAZORPAY_KEY_ID : String
  RAZORPAY_KEY_SECRET : String
  RAZORPAY_WEBHOOK_SECRET : String

/-- Outcome of `bot.send_message`: returns normally, or raises
`telegram.error.TelegramError`. -/
inductive SendResult where
  | ok : SendResult
  | telegramError : SendResult

/-- External calls a handler performs, in order. -/
inductive Effect where
  | verifySig : String → String → String → Effect
  | sendMessage : String → String → Effect

/-- External collaborators of the handlers: the Razorpay signature
verifier (body, signature, secret ↦ does verification pass), the JSON
body parser (`none` models `request.get_json()` raising on a malformed
body) and the Telegram sender. -/
structure Env where
  verify : String → String → String → Bool
  parseJson : String → Option Json
  send : String → String → SendResult

/-- An HTTP request as the handlers see it: the raw body and the
`X-Razorpay-Signature` header (absent or its string value). -/
structure Request where
  rawBody : String
  sigHeader : Option String

/-- A handler's observable result: HTTP status code, JSON response body,
and the external effects performed. -/
structure Outcome where
  status : Nat
  body : Json
  effects : List Effect

/-- Response body `jsonify({'error': msg})`. -/
def errBody (msg : String) : Json := Json.obj [("error", Json.str msg)]

/-- Response body `jsonify({'status': msg})`. -/
def statusBody (msg : String) : Json := Json.obj [("status", Json.str msg)]

/-- Python falsiness of `request.headers.get('X-Razorpay-Signature')`:
`None` (header absent) and the empty string are falsy. -/
def headerFalsy : Option String → Bool
  | none => true
  | some s => s == ""

/-- The notification text built on line 108 of the source. -/
def webhookMsg (cfg : Config) : String :=
  "Thanks for the payment 😘\nHere’s your file: " ++ cfg.FILE_URL

/-- The notification text built on line 129 of the source. -/
def testMsg (cfg : Config) : String :=
  "Thanks for the payment \nHere’s your file: " ++ cfg.FILE_URL

/-- The `/webhook` POST handler (source lines 73-121).  The outer
`try/except Exception` of lines 76/119 surfaces as the `Except.error`
branch of `jsonGet` mapping to the generic 500. -/
def webhook (cfg : Config) (env : Env) (req : Request) : Outcome :=
  if headerFalsy req.sigHeader then
    { status := 400, body := errBody "Missing signature", effects := [] }
  else
    let sig := req.sigHeader.getD ""
    let vEff := Effect.verifySig req.rawBody sig cfg.RAZORPAY_WEBHOOK_SECRET
    if env.verify req.rawBody sig cfg.RAZORPAY_WEBHOOK_SECRET then
      match env.parseJson req.rawBody with
      | none => { status := 400, body := errBody "Invalid JSON", effects := [vEff] }
      | some data =>
        match jsonGet data "event" with
        | Except.error _ =>
            { status := 500, body := errBody "Server error", effects := [vEff] }
        | Except.ok ev =>
          if valueIsStr ev "payment.captured" then
            let msg := webhookMsg cfg
            let sEff := Effect.sendMessage cfg.CHAT_ID msg
            match env.send cfg.CHAT_ID msg with
            | SendResult.ok =>
                { status := 200, body := statusBody "Message sent", effects := [vEff, sEff] }
            | SendResult.telegramError =>
                { status := 500, body := errBody "Failed to send message", effects := [vEff, sEff] }
          else
            { status := 200, body := statusBody "Ignored", effects := [vEff] }
    else
      { status := 403, body := errBody "Invalid signature", effects := [vEff] }

/-- The `/test-payment` POST handler (source lines 123-136).  Its only
`except` is the outer `except Exception` of line 134, so a JSON-parse
failure, a `.get` on a non-dict, or a Telegram error all map to the
generic 500. -/
def test_payment (cfg : Config) (env : Env) (req : Request) : Outcome :=
  match env.parseJson req.rawBody with
  | none => { status := 500, body := errBody "Server error", effects := [] }
  | some data =>
    match jsonGet data "text" with
    | Except.error _ =>
        { status := 500, body := errBody "Server error", effects := [] }
    | Except.ok v =>
      if valueIsStr v "Paid 💸" then
        let msg := testMsg cfg
        let sEff := Effect.sendMessage cfg.CHAT_ID msg
        match env.send cfg.CHAT_ID msg with
        | SendResult.ok =>
            { status := 200, body := statusBody "Message sent", effects := [sEff] }
        | SendResult.telegramError =>
            { status := 500, body := errBody "Server error", effects := [sEff] }
      else
        { status := 400, body := statusBody "Ignored", effects := [] }

/-- The outbound messages (chat id, text) a handler outcome performed. -/
def sentMessages (o : Outcome) : List (String × String) :=
  o.effects.filterMap fun e =>
    match e with
    | Effect.sendMessage chatId text => some (chatId, text)
    | _ => none

/-- The texts of the outbound messages of an outcome. -/
def sentTexts (o : Outcome) : List String :=
  (sentMessages o).map Prod.snd

/-- The number of signature verifications an outcome performed. -/
def verifyCalls (o : Outcome) : Nat :=
  (o.effects.filter fun e =>
    match e with
    | Effect.verifySig _ _ _ => true
    | _ => false).length

/-- The six required configuration keys (source lines 39-44). -/
def requiredKeys : List String :=
  ["telegram_bot_token", "telegram_chat_id", "s3_file_url",
   "razorpay_key_id", "razorpay_key_secret", "razorpay_webhook_secret"]

/-- The startup validation of line 47:
`all([BOT_TOKEN, CHAT_ID, FILE_URL, RAZORPAY_KEY_ID, RAZORPAY_KEY_SECRET, RAZORPAY_WEBHOOK_SECRET])`
where each variable is `config.get(key)`. -/
def configComplete (config : List (String × Json)) : Bool :=
  (requiredKeys.map fun k => optTruthy (lookupField config k)).all id

/-- Module import then `app.run`: if the line-47 check fails, the
`ValueError` of line 49 aborts the process before the listener is bound;
otherwise the listener is bound on the given port (line 156). -/
def startServer (config : List (String × Json)) (port : Nat) : Except String Nat :=
  if configComplete config then Except.ok port
  else Except.error "Incomplete configuration"

/-- A sequence of webhook requests, each with its environment, is served
one by one; each response is produced by the pure handler, so a failing
request does not stop the service. -/
def serve (cfg : Config) : List (Env × Request) → List Outcome
  | [] => []
  | (env, req) :: rest => webhook cfg env req :: serve cfg rest

/-- On a non-object value, Python `.get` raises, modelled as `Except.error`. -/
theorem jsonGet_error_of_not_obj (payload : Json) (key : String)
    (h : isObj payload = false) : jsonGet payload key = Except.error "AttributeError" := by
  cases payload <;> simp_all [isObj, jsonGet]

/-- The two notification texts are never equal: the one of line 108 has one
more character (the 😘) than the one of line 129, whatever the file URL. -/
theorem webhookMsg_ne_testMsg (cfg : Config) : webhookMsg cfg ≠ testMsg cfg := by
  intro h
  have hlen := congrArg String.length h
  rw [webhookMsg, testMsg, String.length_append, String.length_append] at hlen
  have h1 : ("Thanks for the payment 😘\nHere’s your file: " : String).length = 43 := rfl
  have h2 : ("Thanks for the payment \nHere’s your file: " : String).length = 42 := rfl
  rw [h1, h2] at hlen
  omega

/-- Sample configuration for the concrete witnesses. -/
def cfgW : Config :=
  { BOT_TOKEN := "token", CHAT_ID := "42", FILE_URL := "https://example.com/file",
    RAZORPAY_KEY_ID := "rzp_id", RAZORPAY_KEY_SECRET := "rzp_secret",
    RAZORPAY_WEBHOOK_SECRET := "whsec" }

/-- A request carrying a signature header. -/
def reqSigned : Request := { rawBody := "rawbody", sigHeader := some "sig" }

/-- A request without a signature header. -/
def reqNoSig : Request := { rawBody := "rawbody", sigHeader := none }

/-- Environment whose parser yields a non-captured event. -/
def envOther : Env :=
  { verify := fun _ _ _ => true,
    parseJson := fun _ => some (Json.obj [("event", Json.str "order.paid")]),
    send := fun _ _ => SendResult.ok }

/-- Environment whose parser yields the captured event and whose sender
succeeds. -/
def envCaptured : Env :=
  { verify := fun _ _ _ => true,
    parseJson := fun _ => some (Json.obj [("event", Json.str "payment.captured")]),
    send := fun _ _ => SendResult.ok }

/-- Environment whose parser yields the captured event and whose sender
raises a Telegram error. -/
def envCapturedFail : Env :=
  { verify := fun _ _ _ => true,
    parseJson := fun _ => some (Json.obj [("event", Json.str "payment.captured")]),
    send := fun _ _ => SendResult.telegramError }

/-- Environment whose parser fails (malformed body). -/
def envBadJson : Env :=
  { verify := fun _ _ _ => true,
    parseJson := fun _ => none,
    send := fun _ _ => SendResult.ok }

/-- Environment whose parser yields a JSON array (a non-object payload). -/
def envArray : Env :=
  { verify := fun _ _ _ => true,
    parseJson := fun _ => some (Json.arr [Json.num 1]),
    send := fun _ _ => SendResult.ok }

/-- Environment whose parser yields the test trigger payload. -/
def envTrigger : Env :=
  { verify := fun _ _ _ => true,
    parseJson := fun _ => some (Json.obj [("text", Json.str "Paid 💸")]),
    send := fun _ _ => SendResult.ok }

/-- Environment whose parser yields a non-trigger test payload. -/
def envNoTrigger : Env :=
  { verify := fun _ _ _ => true,
    parseJson := fun _ => some (Json.obj [("text", Json.str "hello")]),
    send := fun _ _ => SendResult.ok }

/-- C1: a POST to /webhook with a signature header that passes
verification and a JSON-object payload whose `event` field is not
"payment.captured" gets HTTP 200 with body {"status": "Ignored"} and
sends no outbound message. -/
theorem webhook_ignores_other_events
    (cfg : Config) (env : Env) (req : Request) (sig : String)
    (fields : List (String × Json))
    (hSig : req.sigHeader = some sig) (hNe : sig ≠ "")
    (hVerify : env.verify req.rawBody sig cfg.RAZORPAY_WEBHOOK_SECRET = true)
    (hParse : env.parseJson req.rawBody = some (Json.obj fields))
    (hEvent : valueIsStr (lookupField fields "event") "payment.captured" = false) :
    (webhook cfg env req).status = 200 ∧
    (webhook cfg env req).body = statusBody "Ignored" ∧
    sentMessages (webhook cfg env req) = [] := by
  simp [webhook, headerFalsy, hSig, hNe, hVerify, hParse, jsonGet, hEvent,
    sentMessages]

/-- Witness for C1 at a concrete configuration, environment and request. -/
theorem webhook_ignores_other_events_witness :
    (webhook cfgW envOther reqSigned).status = 200 ∧
    (webhook cfgW envOther reqSigned).body = statusBody "Ignored" ∧
    sentMessages (webhook cfgW envOther reqSigned) = [] :=
  webhook_ignores_other_events cfgW envOther reqSigned "sig"
    [("event", Json.str "order.paid")] rfl (by decide) rfl rfl rfl

/-- C2: a POST to /webhook with body {"event":"payment.captured"}, a
passing signature and a successful send gets HTTP 200 with body
{"status": "Message sent"} and exactly one outbound message, to the
configured chat id. -/
theorem webhook_payment_captured_sends
    (cfg : Config) (env : Env) (req : Request) (sig : String)
    (hSig : req.sigHeader = some sig) (hNe : sig ≠ "")
    (hVerify : env.verify req.rawBody sig cfg.RAZORPAY_WEBHOOK_SECRET = true)
    (hParse : env.parseJson req.rawBody =
      some (Json.obj [("event", Json.str "payment.captured")]))
    (hSend : env.send cfg.CHAT_ID (webhookMsg cfg) = SendResult.ok) :
    (webhook cfg env req).status = 200 ∧
    (webhook cfg env req).body = statusBody "Message sent" ∧
    sentMessages (webhook cfg env req) = [(cfg.CHAT_ID, webhookMsg cfg)] := by
  simp [webhook, headerFalsy, hSig, hNe, hVerify, hParse, jsonGet, lookupField,
    valueIsStr, hSend, sentMessages]

/-- Witness for C2 at a concrete configuration, environment and request. -/
theorem webhook_payment_captured_sends_witness :
    (webhook cfgW envCaptured reqSigned).status = 200 ∧
    (webhook cfgW envCaptured reqSigned).body = statusBody "Message sent" ∧
    sentMessages (webhook cfgW envCaptured reqSigned) =
      [(cfgW.CHAT_ID, webhookMsg cfgW)] :=
  webhook_payment_captured_sends cfgW envCaptured reqSigned "sig"
    rfl (by decide) rfl rfl rfl

/-- C3 counterexample: at a concrete configuration, the text sent by
/test-payment on its trigger differs from the text sent by /webhook on
payment.captured — line 108 has "😘" after "payment", line 129 does not. -/
theorem test_webhook_texts_differ :
    sentTexts (test_payment cfgW envTrigger reqSigned) ≠
      sentTexts (webhook cfgW envCaptured reqSigned) := by
  decide

/-- C3 amended: both endpoints send exactly one message built from the
same configured file URL with the same file-link line, but the greeting
lines differ (the webhook one ends in "😘") and the two texts are never
equal, whatever the configured file URL. -/
theorem test_webhook_texts_relation
    (cfg : Config) (envW envT : Env) (reqW reqT : Request) (sig : String)
    (hSig : reqW.sigHeader = some sig) (hNe : sig ≠ "")
    (hVerify : envW.verify reqW.rawBody sig cfg.RAZORPAY_WEBHOOK_SECRET = true)
    (hParseW : envW.parseJson reqW.rawBody =
      some (Json.obj [("event", Json.str "payment.captured")]))
    (hParseT : envT.parseJson reqT.rawBody =
      some (Json.obj [("text", Json.str "Paid 💸")])) :
    sentTexts (webhook cfg envW reqW) = [webhookMsg cfg] ∧
    sentTexts (test_payment cfg envT reqT) = [testMsg cfg] ∧
    webhookMsg cfg ≠ testMsg cfg := by
  refine ⟨?_, ?_, webhookMsg_ne_testMsg cfg⟩
  · cases hs : envW.send cfg.CHAT_ID (webhookMsg cfg) <;>
      simp [webhook, headerFalsy, hSig, hNe, hVerify, hParseW, jsonGet,
        lookupField, valueIsStr, hs, sentMessages, sentTexts]
  · cases hs : envT.send cfg.CHAT_ID (testMsg cfg) <;>
      simp [test_payment, hParseT, jsonGet, lookupField, valueIsStr, hs,
        sentMessages, sentTexts]

/-- Witness for the amended C3 at a concrete configuration. -/
theorem test_webhook_texts_relation_witness :
    sentTexts (webhook cfgW envCaptured reqSigned) = [webhookMsg cfgW] ∧
    sentTexts (test_payment cfgW envTrigger reqSigned) = [testMsg cfgW] ∧
    webhookMsg cfgW ≠ testMsg cfgW :=
  test_webhook_texts_relation cfgW envCaptured envTrigger reqSigned reqSigned
    "sig" rfl (by decide) rfl rfl rfl

/-- C4: on /test-payment with a JSON-object body, a `text` field equal to
"Paid 💸" and a successful send give HTTP 200 {"status": "Message sent"};
any other `text` value gives HTTP 400 {"status": "Ignored"} with no
outbound message. -/
theorem test_payment_contract
    (cfg : Config) (env : Env) (req : Request) (fields : List (String × Json))
    (hParse : env.parseJson req.rawBody = some (Json.obj fields)) :
    (valueIsStr (lookupField fields "text") "Paid 💸" = true →
      env.send cfg.CHAT_ID (testMsg cfg) = SendResult.ok →
      (test_payment cfg env req).status = 200 ∧
      (test_payment cfg env req).body = statusBody "Message sent") ∧
    (valueIsStr (lookupField fields "text") "Paid 💸" = false →
      (test_payment cfg env req).status = 400 ∧
      (test_payment cfg env req).body = statusBody "Ignored" ∧
      sentMessages (test_payment cfg env req) = []) := by
  constructor
  · intro hText hSend
    simp [test_payment, hParse, jsonGet, hText, hSend]
  · intro hText
    simp [test_payment, hParse, jsonGet, hText, sentMessages]

/-- Witness for C4: both branches at concrete environments. -/
theorem test_payment_contract_witness :
    ((test_payment cfgW envTrigger reqSigned).status = 200 ∧
      (test_payment cfgW envTrigger reqSigned).body = statusBody "Message sent") ∧
    ((test_payment cfgW envNoTrigger reqSigned).status = 400 ∧
      (test_payment cfgW envNoTrigger reqSigned).body = statusBody "Ignored" ∧
      sentMessages (test_payment cfgW envNoTrigger reqSigned) = []) :=
  ⟨(test_payment_contract cfgW envTrigger reqSigned
      [("text", Json.str "Paid 💸")] rfl).1 rfl rfl,
    (test_payment_contract cfgW envNoTrigger reqSigned
      [("text", Json.str "hello")] rfl).2 rfl⟩

/-- C5: a POST to /webhook without the X-Razorpay-Signature header gets
HTTP 400 with the missing-signature error body, and the signature
verifier is never invoked. -/
theorem webhook_missing_signature
    (cfg : Config) (env : Env) (req : Request)
    (hSig : req.sigHeader = none) :
    (webhook cfg env req).status = 400 ∧
    (webhook cfg env req).body = errBody "Missing signature" ∧
    verifyCalls (webhook cfg env req) = 0 := by
  simp [webhook, headerFalsy, hSig, verifyCalls]

/-- Witness for C5 at a concrete request without the header. -/
theorem webhook_missing_signature_witness :
    (webhook cfgW envCaptured reqNoSig).status = 400 ∧
    (webhook cfgW envCaptured reqNoSig).body = errBody "Missing signature" ∧
    verifyCalls (webhook cfgW envCaptured reqNoSig) = 0 :=
  webhook_missing_signature cfgW envCaptured reqNoSig rfl

/-- C6: a POST to /webhook with a passing signature but a body that is
not valid JSON gets HTTP 400 with the invalid-JSON error body. -/
theorem webhook_invalid_json
    (cfg : Config) (env : Env) (req : Request) (sig : String)
    (hSig : req.sigHeader = some sig) (hNe : sig ≠ "")
    (hVerify : env.verify req.rawBody sig cfg.RAZORPAY_WEBHOOK_SECRET = true)
    (hParse : env.parseJson req.rawBody = none) :
    (webhook cfg env req).status = 400 ∧
    (webhook cfg env req).body = errBody "Invalid JSON" := by
  simp [webhook, headerFalsy, hSig, hNe, hVerify, hParse]

/-- Witness for C6 at a concrete environment whose parser fails. -/
theorem webhook_invalid_json_witness :
    (webhook cfgW envBadJson reqSigned).status = 400 ∧
    (webhook cfgW envBadJson reqSigned).body = errBody "Invalid JSON" :=
  webhook_invalid_json cfgW envBadJson reqSigned "sig" rfl (by decide) rfl rfl

/-- C7: on /webhook with a passing signature and an object payload whose
`event` field is "payment.captured", a Telegram error on the send gives
HTTP 500 with an error body, and the service still serves every
subsequent request with the pure handler. -/
theorem webhook_send_failure
    (cfg : Config) (env : Env) (req : Request) (sig : String)
    (fields : List (String × Json))
    (hSig : req.sigHeader = some sig) (hNe : sig ≠ "")
    (hVerify : env.verify req.rawBody sig cfg.RAZORPAY_WEBHOOK_SECRET = true)
    (hParse : env.parseJson req.rawBody = some (Json.obj fields))
    (hEvent : lookupField fields "event" = some (Json.str "payment.captured"))
    (hSend : env.send cfg.CHAT_ID (webhookMsg cfg) = SendResult.telegramError) :
    (webhook cfg env req).status = 500 ∧
    (webhook cfg env req).body = errBody "Failed to send message" ∧
    ∀ rest : List (Env × Request),
      serve cfg ((env, req) :: rest) = webhook cfg env req :: serve cfg rest := by
  refine ⟨?_, ?_, fun rest => rfl⟩ <;>
    simp [webhook, headerFalsy, hSig, hNe, hVerify, hParse, jsonGet, hEvent,
      valueIsStr, hSend]

/-- Witness for C7 at a concrete failing sender. -/
theorem webhook_send_failure_witness :
    (webhook cfgW envCapturedFail reqSigned).status = 500 ∧
    (webhook cfgW envCapturedFail reqSigned).body = errBody "Failed to send message" ∧
    ∀ rest : List (Env × Request),
      serve cfgW ((envCapturedFail, reqSigned) :: rest) =
        webhook cfgW envCapturedFail reqSigned :: serve cfgW rest :=
  webhook_send_failure cfgW envCapturedFail reqSigned "sig"
    [("event", Json.str "payment.captured")] rfl (by decide) rfl rfl rfl rfl

/-- C8: if any of the six required configuration keys is absent or maps
to the empty string, startup fails with the incomplete-configuration
error and the listener is never bound. -/
theorem startup_requires_all_keys
    (config : List (String × Json)) (port : Nat) (key : String)
    (hKey : key ∈ requiredKeys)
    (hMissing : lookupField config key = none ∨
      lookupField config key = some (Json.str "")) :
    startServer config port = Except.error "Incomplete configuration" := by
  have hf : optTruthy (lookupField config key) = false := by
    rcases hMissing with h | h <;> simp [h, optTruthy, truthy]
  have hcc : configComplete config ≠ true := by
    intro hcc
    have hmem : optTruthy (lookupField config key) ∈
        requiredKeys.map fun k => optTruthy (lookupField config k) :=
      List.mem_map_of_mem _ hKey
    have := List.all_eq_true.mp hcc _ hmem
    rw [hf] at this
    exact Bool.noConfusion (id this)
  simp [startServer, Bool.eq_false_iff.mpr hcc]

/-- Witness for C8: a configuration file missing the chat id. -/
theorem startup_requires_all_keys_witness :
    startServer [("telegram_bot_token", Json.str "t")] 5000 =
      Except.error "Incomplete configuration" :=
  startup_requires_all_keys [("telegram_bot_token", Json.str "t")] 5000
    "telegram_chat_id" (by decide) (Or.inl rfl)

/-- C9: a POST to /test-payment whose body is not valid JSON falls to the
catch-all and gets the generic HTTP 500 server-error body, with no
outbound message. -/
theorem test_payment_malformed_json
    (cfg : Config) (env : Env) (req : Request)
    (hParse : env.parseJson req.rawBody = none) :
    (test_payment cfg env req).status = 500 ∧
    (test_payment cfg env req).body = errBody "Server error" ∧
    sentMessages (test_payment cfg env req) = [] := by
  simp [test_payment, hParse, sentMessages]

/-- Witness for C9 at a concrete environment whose parser fails. -/
theorem test_payment_malformed_json_witness :
    (test_payment cfgW envBadJson reqSigned).status = 500 ∧
    (test_payment cfgW envBadJson reqSigned).body = errBody "Server error" ∧
    sentMessages (test_payment cfgW envBadJson reqSigned) = [] :=
  test_payment_malformed_json cfgW envBadJson reqSigned rfl

/-- C10: a POST to /webhook with a passing signature whose body parses to
a non-object JSON value (null, array, …) faults inside the handler and
gets the generic HTTP 500 server-error body, not the 200 "Ignored"
response, with no outbound message. -/
theorem webhook_nonobject_payload
    (cfg : Config) (env : Env) (req : Request) (sig : String) (payload : Json)
    (hSig : req.sigHeader = some sig) (hNe : sig ≠ "")
    (hVerify : env.verify req.rawBody sig cfg.RAZORPAY_WEBHOOK_SECRET = true)
    (hParse : env.parseJson req.rawBody = some payload)
    (hNotObj : isObj payload = false) :
    (webhook cfg env req).status = 500 ∧
    (webhook cfg env req).body = errBody "Server error" ∧
    sentMessages (webhook cfg env req) = [] := by
  simp [webhook, headerFalsy, hSig, hNe, hVerify, hParse,
    jsonGet_error_of_not_obj payload "event" hNotObj, sentMessages]

/-- Witness for C10 at a concrete array payload. -/
theorem webhook_nonobject_payload_witness :
    (webhook cfgW envArray reqSigned).status = 500 ∧
    (webhook cfgW envArray reqSigned).body = errBody "Server error" ∧
    sentMessages (webhook cfgW envArray reqSigned) = [] :=
  webhook_nonobject_payload cfgW envArray reqSigned "sig" (Json.arr [Json.num 1])
    rfl (by decide) rfl rfl rfl

end KittyWebhook
